import Mathlib

/-!
Verification development for the make-fetch-happen HTTP fetching library.

The repository snapshot bundles several revisions of the same modules
(`src/index.js` plus the revision in `src/unnamed/part_006` which delegates
freshness to the external http-cache-semantics package; two revisions of
`src/cache.js`; two revisions of the standalone agent module in
`src/unnamed/part_005`).  Definitions below are shallow embeddings of those
JavaScript functions; where two revisions differ, both are embedded, with a
suffix distinguishing them, and each definition's doc comment cites the file
and lines it was translated from.

External dependencies (node-fetch, cacache, ssri, http-cache-semantics,
promise-retry) are modelled at their contract surface: the cache store lookup
result, the freshness verdict, and the storability verdict enter as
parameters, exactly at the points where the source calls into them.
-/

namespace MakeFetchHappen

/-- ASCII lowercasing of one character (the only case mapping relevant to
header names and cache-mode strings). -/
def lowerChar (c : Char) : Char :=
  if 'A' ≤ c ∧ c ≤ 'Z' then Char.ofNat (c.toNat + 32) else c

/-- ASCII uppercasing of one character. -/
def upperChar (c : Char) : Char :=
  if 'a' ≤ c ∧ c ≤ 'z' then Char.ofNat (c.toNat - 32) else c

/-- `s.toLowerCase()` on ASCII strings, defined by list map so that it
reduces in the kernel. -/
def lowerStr (s : String) : String := ⟨s.data.map lowerChar⟩

/-- `s.toUpperCase()` on ASCII strings. -/
def upperStr (s : String) : String := ⟨s.data.map upperChar⟩

/-- A header map, as node-fetch keeps it: a list of name/value pairs with
case-insensitive names. -/
abbrev HeaderMap := List (String × String)

/-- `headers.get(name)` of node-fetch: case-insensitive lookup, `null`
(modelled as `none`) when absent. -/
def headerGet (hs : HeaderMap) (name : String) : Option String :=
  (hs.find? (fun p => lowerStr p.1 == lowerStr name)).map Prod.snd

/-- `headers.delete(name)` of node-fetch: removes every pair whose name
matches case-insensitively. -/
def headerDelete (hs : HeaderMap) (name : String) : HeaderMap :=
  hs.filter (fun p => !(lowerStr p.1 == lowerStr name))

/-- JavaScript truthiness of a string-or-absent value: `undefined`, `null`
and the empty string are falsy, every other string is truthy. -/
def jsTruthy : Option String → Bool
  | none => false
  | some s => !(s == "")

/-- JavaScript `a || b` for string-valued expressions: `a` when truthy,
otherwise `b` (even when `b` is itself falsy). -/
def jsOr (a b : Option String) : Option String :=
  if jsTruthy a then a else b

/-- `isConditional` from src/index.js lines 438-449 (identically
src/unnamed/part_006 lines 437-448): does the header list contain one of the
five conditional-request headers, compared case-insensitively. -/
def isConditional (headers : HeaderMap) : Bool :=
  headers.any (fun p =>
    let h := lowerStr p.1
    h == "if-modified-since" || h == "if-none-match" ||
    h == "if-unmodified-since" || h == "if-match" || h == "if-range")

/-- A response as the orchestrator observes it: status plus headers.  Bodies
are modelled separately (see the tee model below). -/
structure Response where
  status : Nat
  headers : HeaderMap
deriving Repr, DecidableEq

/-- Leading decimal digits of a string, the `(...).match(/^\d+/)` followed by
unary `+` conversion used on the Warning header (src/index.js line 91,
src/unnamed/part_006 line 97). -/
def leadingDigits (s : String) : Option Nat :=
  let ds := s.data.takeWhile Char.isDigit
  if ds.isEmpty then none
  else some (ds.foldl (fun n c => n * 10 + (c.toNat - 48)) 0)

/-- The Warning-header stripping done on a cache hit before dispatch,
src/index.js lines 90-96 and src/unnamed/part_006 lines 96-102: if the
stored response carries a `Warning` whose code is in [100, 200), the header
is deleted. -/
def stripWarning1xx (res : Response) : Response :=
  match leadingDigits ((headerGet res.headers "Warning").getD "") with
  | some n =>
    if 100 ≤ n ∧ n < 200 then { res with headers := headerDelete res.headers "Warning" }
    else res
  | none => res

/-- An error object carrying `code` and `message`, as built for the
only-if-cached cache miss. -/
structure FetchError where
  code : String
  message : String
deriving Repr, DecidableEq

/-- The synthetic error thrown on an only-if-cached miss, src/index.js lines
106-111 and src/unnamed/part_006 lines 112-117: the message interpolates the
requested URL, the code is ENOTCACHED. -/
def notCachedError (uri : String) : FetchError :=
  { code := "ENOTCACHED"
  , message := "request to " ++ uri ++
      " failed: cache mode is \x27only-if-cached\x27 but no cached response available." }

/-- The action `cachingFetch` resolves to after consulting the cache:
serve the cached response, revalidate it conditionally, reject with the
ENOTCACHED error, or go to the network (`remoteFetch`). -/
inductive FetchAction where
  | served (res : Response)
  | revalidate (res : Response)
  | notCached (err : FetchError)
  | network
deriving Repr, DecidableEq

/-- `(opts.method || 'GET').toUpperCase()`, src/index.js line 55 and
src/unnamed/part_006 line 56. -/
def normMethod (m : Option String) : String :=
  upperStr (if jsTruthy m then m.getD "" else "GET")

/-- `opts.cache = opts.cacheManager && (opts.cache || 'default')`,
src/index.js line 68 and src/unnamed/part_006 line 74: without a cache
manager the cache mode is falsy (`none`); with one, a falsy mode defaults to
`"default"`. -/
def cacheModeOf (cacheManager : Bool) (cache : Option String) : Option String :=
  if cacheManager then some (if jsTruthy cache then cache.getD "" else "default") else none

/-- The conditional-header promotion, src/index.js lines 69-78 and
src/unnamed/part_006 lines 75-84: in mode `default` with a cache manager, a
conditional request header forces mode `no-store`. -/
def promoteConditional (cacheManager : Bool) (cache : Option String)
    (headers : HeaderMap) : Option String :=
  if cacheManager ∧ cache = some "default" ∧ isConditional headers then some "no-store"
  else cache

/-- The cache-mode dispatch of `cachingFetch`, src/index.js lines 52-121 and
src/unnamed/part_006 lines 53-127.  The cache store's lookup result enters as
`matched` and the freshness verdict as `stale` (`isStale` delegates to
header arithmetic in src/index.js and to the external http-cache-semantics
package in part_006; both are consulted only in mode `default`).  The
returned `FetchAction` records which branch of the source's if/else chain
ran: `.network` is the branch that calls `remoteFetch`. -/
def cachingFetch (uri : String) (method0 : Option String) (cacheManager : Bool)
    (cache0 : Option String) (headers : HeaderMap)
    (matched : Option Response) (stale : Bool) : FetchAction :=
  let method := normMethod method0
  let cache := promoteConditional cacheManager (cacheModeOf cacheManager cache0) headers
  if (method = "GET" ∨ method = "HEAD") ∧ cacheManager
      ∧ cache ≠ some "no-store" ∧ cache ≠ some "reload" then
    match matched with
    | some res0 =>
      let res := stripWarning1xx res0
      if cache = some "default" ∧ ¬stale then .served res
      else if cache = some "default" ∨ cache = some "no-cache" then .revalidate res
      else if cache = some "force-cache" ∨ cache = some "only-if-cached" then .served res
      else .network
    | none =>
      if cache = some "only-if-cached" then .notCached (notCachedError uri)
      else .network
  else .network

/-! ## The retry engine (`remoteFetch`, src/index.js lines 231-341 and
src/unnamed/part_006 lines 231-340)

Each attempt either yields a response or fails with an error; the attempt
body classifies the outcome and either returns it, throws it, or calls the
promise-retry `retryHandler` to schedule another attempt. -/

/-- What the attempt body of `remoteFetch` does with a response.  The
constructors record the cache side effect of the branch taken:
`.putCache` stores the response (`cacheManager.put`), `.deleteFinal` and
`.deleteRetry` invalidate the key (`cacheManager.delete`) and then return or
retry, `.retryRes` calls the retry handler, `.finalRes` returns the response
untouched. -/
inductive RespAction where
  | putCache
  | deleteFinal
  | deleteRetry
  | retryRes
  | finalRes
deriving Repr, DecidableEq

/-- The `cacheCtrl.match(/no-store/i)` test of src/index.js line 275:
case-insensitive substring search. -/
def hasNoStoreCI (s : String) : Bool :=
  decide ((lowerStr "no-store").data <:+: (lowerStr s).data)

/-- The response classification of `remoteFetch` in src/index.js lines
271-318: store 200/304 GET/HEAD responses unless `no-store` forbids it;
invalidate on other methods (retrying 5xx unless POST or a stream body);
retry 404/408/420/429/5xx unless POST or a stream body; otherwise return. -/
def remoteFetchOnResponse (cacheManager : Bool) (cache : Option String)
    (method : String) (bodyIsStream : Bool) (res : Response) : RespAction :=
  if (method = "GET" ∨ method = "HEAD") ∧ cacheManager
      ∧ ¬hasNoStoreCI ((headerGet res.headers "cache-control").getD "")
      ∧ cache ≠ some "no-store" ∧ (res.status = 200 ∨ res.status = 304) then
    .putCache
  else if cacheManager ∧ ¬(method = "GET" ∨ method = "HEAD") then
    if 500 ≤ res.status then
      if method = "POST" then .deleteFinal
      else if bodyIsStream then .deleteFinal
      else .deleteRetry
    else .deleteFinal
  else if res.status = 404 ∨ res.status = 408 ∨ res.status = 420 ∨ res.status = 429
      ∨ 500 ≤ res.status then
    if method = "POST" then .finalRes
    else if bodyIsStream then .finalRes
    else .retryRes
  else .finalRes

/-- The response classification of `remoteFetch` in src/unnamed/part_006
lines 272-317: storability is decided by the external http-cache-semantics
policy (`makePolicy(req, res).storable()`, entering here as `storable`),
only status 200 is stored, and 404 is no longer in the retriable set. -/
def remoteFetchOnResponseHcs (cacheManager : Bool) (cache : Option String)
    (method : String) (bodyIsStream : Bool) (storable : Bool) (res : Response) : RespAction :=
  if cacheManager ∧ cache ≠ some "no-store" ∧ (method = "GET" ∨ method = "HEAD")
      ∧ storable ∧ res.status = 200 then
    .putCache
  else if cacheManager ∧ ¬(method = "GET" ∨ method = "HEAD") then
    if 500 ≤ res.status then
      if method = "POST" then .deleteFinal
      else if bodyIsStream then .deleteFinal
      else .deleteRetry
    else .deleteFinal
  else if res.status = 408 ∨ res.status = 420 ∨ res.status = 429 ∨ 500 ≤ res.status then
    if method = "POST" then .finalRes
    else if bodyIsStream then .finalRes
    else .retryRes
  else .finalRes

/-- A transport-level error as the catch handler sees it: its `code`, the
`retried.code` it wraps when the code is EPROMISERETRY, and its `type`. -/
structure FetchErr where
  code : String
  retriedCode : String
  type : String
deriving Repr, DecidableEq

/-- src/index.js lines 12-19 (identically part_006 lines 13-20). -/
def RETRY_ERRORS : List String := ["ECONNRESET", "ECONNREFUSED", "EADDRINUSE", "ETIMEDOUT"]

/-- src/index.js lines 21-23 (identically part_006 lines 22-24). -/
def RETRY_TYPES : List String := ["request-timeout"]

/-- The catch handler of `remoteFetch`, src/index.js lines 319-333 and
(identically) src/unnamed/part_006 lines 318-332: retry exactly when the
method is not POST and the unwrapped code is a retriable transport code or
the error type is a retriable type.  Note the stream-body guard of the
response path is absent here. -/
def remoteFetchOnError (method : String) (err : FetchErr) : Bool :=
  let code := if err.code = "EPROMISERETRY" then err.retriedCode else err.code
  decide (method ≠ "POST" ∧ (code ∈ RETRY_ERRORS ∨ err.type ∈ RETRY_TYPES))

/-- One attempt's outcome: the transport either produced a response or
failed with an error. -/
inductive Outcome where
  | ok (res : Response)
  | fail (err : FetchErr)
deriving Repr, DecidableEq

/-- What one attempt does to the retry loop: finish with a response, throw
an error, or hand the outcome to the retry handler. -/
inductive StepResult where
  | done (res : Response)
  | thrown (err : FetchErr)
  | again (x : Outcome)
deriving Repr, DecidableEq

/-- The overall result of `remoteFetch`: a resolved response, a thrown error
object, or a response thrown as an error (rejected without a `status`
below 400 cannot happen for responses — see `retryExhausted`). -/
inductive FinalOutcome where
  | resp (res : Response)
  | errObj (err : FetchErr)
  | errResp (res : Response)
deriving Repr, DecidableEq

/-- The final catch of `remoteFetch` (src/index.js lines 334-340, part_006
lines 333-339) applied to the value promise-retry rejects with once attempts
are exhausted: a rejected value with `status >= 400` is returned as the
response, anything else is rethrown. -/
def retryExhausted : Outcome → FinalOutcome
  | .ok res => if 400 ≤ res.status then .resp res else .errResp res
  | .fail err => .errObj err

/-- One attempt of the src/index.js `remoteFetch`, combining the response
and error classifications into a step of the retry loop. -/
def stepPlain (cacheManager : Bool) (cache : Option String) (method : String)
    (bodyIsStream : Bool) : Outcome → StepResult
  | .ok res =>
    match remoteFetchOnResponse cacheManager cache method bodyIsStream res with
    | .retryRes => .again (.ok res)
    | .deleteRetry => .again (.ok res)
    | _ => .done res
  | .fail err =>
    if remoteFetchOnError method err then .again (.fail err) else .thrown err

/-- One attempt of the part_006 `remoteFetch`; `storable` is the
http-cache-semantics verdict for the request/response pair. -/
def stepHcs (cacheManager : Bool) (cache : Option String) (method : String)
    (bodyIsStream : Bool) (storable : Response → Bool) : Outcome → StepResult
  | .ok res =>
    match remoteFetchOnResponseHcs cacheManager cache method bodyIsStream (storable res) res with
    | .retryRes => .again (.ok res)
    | .deleteRetry => .again (.ok res)
    | _ => .done res
  | .fail err =>
    if remoteFetchOnError method err then .again (.fail err) else .thrown err

/-- The promise-retry loop: attempt numbers are 1-based (`attemptNum` of
src/index.js line 253), `budget` is the remaining `retries`; when an attempt
asks to retry with no budget left, the rejected value goes through the final
catch (`retryExhausted`).  Returns the number of attempts made and the final
outcome. -/
def runRetryLoop (step : Outcome → StepResult) (f : Nat → Outcome) :
    Nat → Nat → Nat × FinalOutcome
  | attempt, 0 =>
    match step (f attempt) with
    | .done r => (attempt, .resp r)
    | .thrown e => (attempt, .errObj e)
    | .again x => (attempt, retryExhausted x)
  | attempt, budget + 1 =>
    match step (f attempt) with
    | .done r => (attempt, .resp r)
    | .thrown e => (attempt, .errObj e)
    | .again _ => runRetryLoop step f (attempt + 1) budget

/-- `remoteFetch` of src/index.js as a whole: run the retry loop with the
plain attempt classification.  `f n` is the transport outcome of attempt
`n`. -/
def runRetryPlain (cacheManager : Bool) (cache : Option String) (method : String)
    (bodyIsStream : Bool) (f : Nat → Outcome) (retries : Nat) : Nat × FinalOutcome :=
  runRetryLoop (stepPlain cacheManager cache method bodyIsStream) f 1 retries

/-- `remoteFetch` of src/unnamed/part_006 as a whole. -/
def runRetryHcs (cacheManager : Bool) (cache : Option String) (method : String)
    (bodyIsStream : Bool) (storable : Response → Bool) (f : Nat → Outcome)
    (retries : Nat) : Nat × FinalOutcome :=
  runRetryLoop (stepHcs cacheManager cache method bodyIsStream storable) f 1 retries

/-! ## The cacache-backed cache store (src/cache.js)

The second revision (src/cache.js lines 165-396) stores
`{url, reqHeaders, resHeaders}` as entry metadata plus the content digest,
and filters lookups through `matchDetails`.  The cacache index lookup
(`cacache.get.info`) enters as the `Option CacheInfo` argument. -/

/-- A request as the cache store sees it: URL plus headers. -/
structure Request where
  url : String
  headers : HeaderMap
deriving Repr, DecidableEq

/-- Characters the JavaScript `\s` class matches (the ones occurring in
header values). -/
def isWs (c : Char) : Bool :=
  c == ' ' || c == '\t' || c == '\n' || c == '\r' || c == '\x0b' || c == '\x0c'

/-- `vary.split(/\s*,\s*/)` of src/cache.js line 374: split at commas,
consuming the whitespace adjacent to each comma (outer whitespace of the
first and last fields is kept, exactly as the regex leaves it). -/
def splitCommaAux : List Char → List Char → List (List Char)
  | [], acc => [acc.reverse]
  | c :: cs, acc =>
    if c == ',' then acc.reverse :: splitCommaAux cs [] else splitCommaAux cs (c :: acc)

/-- See `splitCommaAux`. -/
def splitCommaWs (s : String) : List String :=
  let ps := splitCommaAux s.data []
  let n := ps.length
  ps.enum.map (fun ie =>
    let t := if 0 < ie.1 then ie.2.dropWhile isWs else ie.2
    let t2 := if ie.1 + 1 < n then (t.reverse.dropWhile isWs).reverse else t
    String.mk t2)

/-- A parsed subresource-integrity value, as the external ssri package
represents it: a map from algorithm to digest list.  `ssri.parse` itself is
part of the external dependency; entries arrive here already parsed. -/
abbrev Sri := List (String × List String)

/-- Modelled from the external ssri dependency: the relative strength
ordering its `pickAlgorithm` uses. -/
def sriPrio (algo : String) : Nat :=
  if algo = "sha512" then 4
  else if algo = "sha384" then 3
  else if algo = "sha256" then 2
  else if algo = "sha1" then 1
  else 0

/-- Modelled from the external ssri dependency: `sri.pickAlgorithm()`
reduces over the present algorithms keeping the strongest. -/
def pickAlgorithm (sri : Sri) : String :=
  (sri.map Prod.fst).foldl (fun acc a => if sriPrio acc < sriPrio a then a else acc) ""

/-- `sri[algo]`: the digest list stored under an algorithm. -/
def sriGet (sri : Sri) (algo : String) : Option (List String) :=
  (sri.find? (fun p => p.1 == algo)).map Prod.snd

/-- `url.parse` followed by erasing `hash` and `url.format`, as
`matchDetails` does to both URLs (src/cache.js lines 366-367, 393-395):
modelled as truncating the fragment. -/
def stripHash (s : String) : String :=
  String.mk (s.data.takeWhile (fun c => !(c == '#')))

/-- The `cached` record `Cache.match` passes to `matchDetails`
(src/cache.js lines 207-213): stored URL, stored request and response
headers, the stored content digest, and the caller's `opts.integrity`. -/
structure CachedDetails where
  url : String
  reqHeaders : HeaderMap
  resHeaders : HeaderMap
  cacheIntegrity : Sri
  integrity : Option Sri
deriving Repr, DecidableEq

/-- The integrity filter and URL comparison at the end of `matchDetails`,
src/cache.js lines 382-395: when the caller supplied an integrity, the
stored digest under the caller's preferred algorithm must be one of the
accepted digests; finally the two URLs (fragments erased) must be equal. -/
def matchDetailsRest (req : Request) (cached : CachedDetails) : Bool :=
  (match cached.integrity with
   | none => true
   | some sri =>
     let algo := pickAlgorithm sri
     match sriGet cached.cacheIntegrity algo with
     | none => true
     | some ds => ((sriGet sri algo).getD []).any (fun h => ds.head? == some h)) &&
  (stripHash req.url == stripHash cached.url)

/-- `matchDetails` of src/cache.js lines 365-396: a stored response whose
`Vary` contains `*` never matches; otherwise every field listed in `Vary`
must have equal values in the stored and current request headers; then the
integrity filter and URL comparison run. -/
def matchDetails (req : Request) (cached : CachedDetails) : Bool :=
  if jsTruthy (headerGet cached.resHeaders "Vary") then
    let v := (headerGet cached.resHeaders "Vary").getD ""
    if v.data.contains '*' then false
    else if (splitCommaWs v).all
        (fun field => headerGet cached.reqHeaders field == headerGet req.headers field) then
      matchDetailsRest req cached
    else false
  else matchDetailsRest req cached

/-- A cacache index entry as `cacache.get.info` returns it to `Cache.match`
(src/cache.js lines 206-213): the stored metadata plus the content
digest. -/
structure CacheInfo where
  metaUrl : String
  reqHeaders : HeaderMap
  resHeaders : HeaderMap
  integrity : Sri
deriving Repr, DecidableEq

/-- `Cache.match` of src/cache.js lines 205-270, after the cacache index
lookup: a hit is produced only when an entry exists and `matchDetails`
accepts it, and the hit's headers are exactly the stored response headers
(`info.metadata.resHeaders`, lines 217 and 261) with status 200.  (For HEAD
the body is empty and for GET it streams from the content store; bodies are
not modelled here.) -/
def cacheMatch (req : Request) (optsIntegrity : Option Sri)
    (infoOpt : Option CacheInfo) : Option Response :=
  match infoOpt with
  | none => none
  | some info =>
    if matchDetails req
        { url := info.metaUrl
        , reqHeaders := info.reqHeaders
        , resHeaders := info.resHeaders
        , cacheIntegrity := info.integrity
        , integrity := optsIntegrity } then
      some { status := 200, headers := info.resHeaders }
    else none

/-- `cacheKey` of src/cache.js lines 178-189: format the parsed request URL
keeping protocol, host and pathname only — i.e. drop the query string and
fragment — behind a fixed namespace. -/
def cacheKey (req : Request) : String :=
  "make-fetch-happen:request-cache:" ++
    String.mk (req.url.data.takeWhile (fun c => !(c == '?') && !(c == '#')))

/-- `Cache.delete` of src/cache.js lines 356-362 (first revision: lines
151-159): ask cacache to remove the index entry for the key, then resolve
`false` unconditionally (`.then(() => false)`, with a `TODO - true/false`
comment).  The store is modelled as a key-indexed list; removal is the
cacache side of the contract. -/
def cacheDelete (store : List (String × CacheInfo)) (req : Request) :
    Bool × List (String × CacheInfo) :=
  (false, store.filter (fun p => !(p.1 == cacheKey req)))

/-! ## The streaming tee of `Cache.put` (src/cache.js lines 339-349)

The sink passed to `pipe` writes each chunk to the cache writer and only
inside that write's flush callback forwards the chunk to the caller-visible
body, then signals the pipeline to hand over the next chunk.  Under the
single-threaded event loop this produces, per chunk, a cache-flush event
strictly before the caller write. -/

/-- One observable event of the tee. -/
inductive TeeEvent (α : Type) where
  | cacheFlush (chunk : α)
  | callerWrite (chunk : α)
deriving Repr, DecidableEq

/-- The event trace of the tee of src/cache.js lines 339-343 over a chunk
sequence: `cacheStream.write(chunk, enc, () => newBody.write(chunk, enc, cb))`
flushes the chunk to the cache, then writes it to the caller stream, then
`cb` lets the pipeline deliver the next chunk. -/
def teeTrace {α : Type} : List α → List (TeeEvent α)
  | [] => []
  | c :: cs => .cacheFlush c :: .callerWrite c :: teeTrace cs

/-- The chunks the caller-visible body has been handed in a trace. -/
def deliveredToCaller {α : Type} (tr : List (TeeEvent α)) : List α :=
  tr.filterMap (fun e => match e with | .callerWrite c => some c | _ => none)

/-- The chunks the cache writer has flushed in a trace. -/
def acceptedByCache {α : Type} (tr : List (TeeEvent α)) : List α :=
  tr.filterMap (fun e => match e with | .cacheFlush c => some c | _ => none)

/-! ## Proxy selection

Two revisions exist: `getProxyUri` inline in src/index.js lines 391-405
(identically src/unnamed/part_006 lines 390-404, and the first agent-module
revision, src/unnamed/part_005 lines 62-76), which indexes `process.env` by
the exact lowercase names; and the later agent-module revision
(src/unnamed/part_005 lines 201-213) whose lookups go through
`getProcessEnv` (lines 178-199), trying each name verbatim, uppercased and
lowercased. -/

/-- The process environment: names to values, names case-sensitive as on
POSIX, where an empty value is falsy but defined. -/
abbrev Env := List (String × String)

/-- `process.env[name]`: exact-name lookup. -/
def envGet (env : Env) (name : String) : Option String :=
  (env.find? (fun p => p.1 == name)).map Prod.snd

/-- `getProcessEnv` of src/unnamed/part_005 lines 178-199 on a single name:
`process.env[e] || process.env[e.toUpperCase()] || process.env[e.toLowerCase()]`. -/
def getProcessEnvOne (env : Env) (e : String) : Option String :=
  jsOr (envGet env e) (jsOr (envGet env (upperStr e)) (envGet env (lowerStr e)))

/-- `getProcessEnv` of src/unnamed/part_005 lines 183-190 on a name list:
evaluate the single-name chain per element, stopping at the first defined
(non-`undefined`) value. -/
def getProcessEnvList (env : Env) : List String → Option String
  | [] => none
  | e :: rest =>
    let value := getProcessEnvOne env e
    if value = none then getProcessEnvList env rest else value

/-- `getProxyUri` of src/index.js lines 391-405:
`opts.proxy || (https && env.https_proxy) || (http && (env.https_proxy ||
env.http_proxy || env.proxy))`, with `checkNoProxy` constantly false.  The
final `url.parse` of the chosen string is left as the string. -/
def getProxyUri (protocol : String) (optsProxy : Option String) (env : Env) : Option String :=
  jsOr optsProxy (jsOr
    (if protocol = "https:" then envGet env "https_proxy" else none)
    (if protocol = "http:" then
      jsOr (envGet env "https_proxy") (jsOr (envGet env "http_proxy") (envGet env "proxy"))
    else none))

/-- `getProxyUri` of the later agent module, src/unnamed/part_005 lines
201-213: the same shape, with the environment reads going through
`getProcessEnv`. -/
def getProxyUriAgent (protocol : String) (optsProxy : Option String) (env : Env) :
    Option String :=
  jsOr optsProxy (jsOr
    (if protocol = "https:" then getProcessEnvOne env "https_proxy" else none)
    (if protocol = "http:" then getProcessEnvList env ["https_proxy", "http_proxy", "proxy"]
    else none))

/-- Modelled from the spec: "Env lookups try the name verbatim, uppercased,
and lowercased in that order" — the first defined value wins. -/
def specEnvLookup (env : Env) (name : String) : Option String :=
  (envGet env name).orElse (fun _ =>
    (envGet env (upperStr name)).orElse (fun _ => envGet env (lowerStr name)))

/-- A string-or-absent value that is never the (falsy but defined) empty
string. -/
def cleanVal (a : Option String) : Prop := ∀ v, a = some v → v ≠ ""

/-- C1: for a GET or HEAD request whose effective cache mode is `default`,
when the cache manager's match returns an entry and that entry is not stale,
`cachingFetch` serves the cached entry (with only the RFC 7234 1xx-Warning
strip applied) and does not take the network branch. -/
theorem claim_C1_default_fresh_served (uri : String) (method0 cache0 : Option String)
    (headers : HeaderMap) (res : Response)
    (hm : normMethod method0 = "GET" ∨ normMethod method0 = "HEAD")
    (hc : promoteConditional true (cacheModeOf true cache0) headers = some "default") :
    cachingFetch uri method0 true cache0 headers (some res) false
      = .served (stripWarning1xx res) := by
  unfold cachingFetch
  rcases hm with h | h <;> simp [h, hc]

/-- Witness for C1 at a concrete input: default mode (absent), GET (absent
method), empty headers, a concrete fresh cached response. -/
theorem claim_C1_default_fresh_served_witness :
    cachingFetch "https://example.com/a" none true none []
      (some { status := 200, headers := [("content-type", "text/plain")] }) false
      = .served (stripWarning1xx { status := 200, headers := [("content-type", "text/plain")] }) :=
  claim_C1_default_fresh_served "https://example.com/a" none none []
    { status := 200, headers := [("content-type", "text/plain")] }
    (Or.inl (by decide)) (by decide)

/-- C5: in mode `only-if-cached`, a cache miss makes `cachingFetch` reject
with the synthetic error whose code is ENOTCACHED and whose message contains
the requested URL; the network branch is not taken. -/
theorem claim_C5_only_if_cached_miss (uri : String) (method0 cache0 : Option String)
    (headers : HeaderMap) (stale : Bool)
    (hm : normMethod method0 = "GET" ∨ normMethod method0 = "HEAD")
    (hc : promoteConditional true (cacheModeOf true cache0) headers = some "only-if-cached") :
    cachingFetch uri method0 true cache0 headers none stale
      = .notCached (notCachedError uri)
    ∧ (notCachedError uri).code = "ENOTCACHED"
    ∧ (notCachedError uri).message = "request to " ++ uri ++
        " failed: cache mode is \x27only-if-cached\x27 but no cached response available." := by
  refine ⟨?_, rfl, rfl⟩
  unfold cachingFetch
  rcases hm with h | h <;> simp [h, hc]

/-- Witness for C5 at a concrete input: `cache: only-if-cached`, no entry. -/
theorem claim_C5_only_if_cached_miss_witness :
    cachingFetch "https://example.com/b" none true (some "only-if-cached") [] none false
      = .notCached (notCachedError "https://example.com/b")
    ∧ (notCachedError "https://example.com/b").code = "ENOTCACHED"
    ∧ (notCachedError "https://example.com/b").message = "request to " ++
        "https://example.com/b" ++
        " failed: cache mode is \x27only-if-cached\x27 but no cached response available." :=
  claim_C5_only_if_cached_miss "https://example.com/b" none (some "only-if-cached") [] false
    (Or.inl (by decide)) (by decide)

/-- A POST response is never classified for retry by the src/index.js
attempt body. -/
lemma onResponse_post_never_retry (cm : Bool) (cache : Option String)
    (stream : Bool) (res : Response) :
    remoteFetchOnResponse cm cache "POST" stream res ≠ .retryRes
    ∧ remoteFetchOnResponse cm cache "POST" stream res ≠ .deleteRetry := by
  constructor <;> · unfold remoteFetchOnResponse; split_ifs <;> simp_all

/-- A POST response is never classified for retry by the part_006 attempt
body. -/
lemma onResponseHcs_post_never_retry (cm : Bool) (cache : Option String)
    (stream : Bool) (storable : Bool) (res : Response) :
    remoteFetchOnResponseHcs cm cache "POST" stream storable res ≠ .retryRes
    ∧ remoteFetchOnResponseHcs cm cache "POST" stream storable res ≠ .deleteRetry := by
  constructor <;> · unfold remoteFetchOnResponseHcs; split_ifs <;> simp_all

/-- For POST, one attempt never asks for another (src/index.js step). -/
lemma stepPlain_post_no_again (cm : Bool) (cache : Option String) (stream : Bool)
    (o : Outcome) (x : Outcome) : stepPlain cm cache "POST" stream o ≠ .again x := by
  cases o with
  | ok res =>
    have h := onResponse_post_never_retry cm cache stream res
    unfold stepPlain
    rcases hr : remoteFetchOnResponse cm cache "POST" stream res <;> simp_all
  | fail err =>
    unfold stepPlain remoteFetchOnError
    simp

/-- For POST, one attempt never asks for another (part_006 step). -/
lemma stepHcs_post_no_again (cm : Bool) (cache : Option String) (stream : Bool)
    (storable : Response → Bool) (o : Outcome) (x : Outcome) :
    stepHcs cm cache "POST" stream storable o ≠ .again x := by
  cases o with
  | ok res =>
    have h := onResponseHcs_post_never_retry cm cache stream (storable res) res
    unfold stepHcs
    rcases hr : remoteFetchOnResponseHcs cm cache "POST" stream (storable res) res <;> simp_all
  | fail err =>
    unfold stepHcs remoteFetchOnError
    simp

/-- A response to a stream-body request is never classified for retry by
the src/index.js attempt body. -/
lemma onResponse_stream_never_retry (cm : Bool) (cache : Option String)
    (method : String) (res : Response) :
    remoteFetchOnResponse cm cache method true res ≠ .retryRes
    ∧ remoteFetchOnResponse cm cache method true res ≠ .deleteRetry := by
  constructor <;> · unfold remoteFetchOnResponse; split_ifs <;> simp_all

/-- A response to a stream-body request is never classified for retry by
the part_006 attempt body. -/
lemma onResponseHcs_stream_never_retry (cm : Bool) (cache : Option String)
    (method : String) (storable : Bool) (res : Response) :
    remoteFetchOnResponseHcs cm cache method true storable res ≠ .retryRes
    ∧ remoteFetchOnResponseHcs cm cache method true storable res ≠ .deleteRetry := by
  constructor <;> · unfold remoteFetchOnResponseHcs; split_ifs <;> simp_all

/-- A step function that never asks to retry makes the loop stop at the
current attempt. -/
lemma runRetryLoop_no_again (step : Outcome → StepResult) (f : Nat → Outcome)
    (h : ∀ o x, step o ≠ .again x) (attempt budget : Nat) :
    (runRetryLoop step f attempt budget).1 = attempt := by
  cases budget <;>
  · unfold runRetryLoop
    rcases hs : step (f attempt) with r | e | x
    · simp
    · simp
    · exact absurd hs (h _ _)

/-- A step function that always asks to retry exhausts the whole budget:
the loop makes `attempt + budget` numbered attempts. -/
lemma runRetryLoop_always_again (step : Outcome → StepResult) (f : Nat → Outcome)
    (h : ∀ n, ∃ x, step (f n) = .again x) (attempt budget : Nat) :
    (runRetryLoop step f attempt budget).1 = attempt + budget := by
  induction budget generalizing attempt with
  | zero =>
    unfold runRetryLoop
    obtain ⟨x, hx⟩ := h attempt
    simp [hx]
  | succ b ih =>
    unfold runRetryLoop
    obtain ⟨x, hx⟩ := h attempt
    simp only [hx]
    rw [ih]
    omega

/-- C3 counterexample: a GET request whose body is a stream, failing with
the retriable transport code ECONNRESET and one retry of budget, is
attempted twice by the part_006 `remoteFetch` — the stream-body guard of the
response path does not exist on the error path, so the claim that stream
bodies are never retried is false. -/
theorem claim_C3_counterexample :
    (runRetryHcs false none "GET" true (fun _ => false)
      (fun _ => .fail { code := "ECONNRESET", retriedCode := "", type := "" }) 1).1 = 2 := by
  rfl

/-- C3 amended: POST requests make exactly one attempt in both revisions,
whatever the outcomes; for non-POST requests with a stream body, a response
(whatever its status) never triggers another attempt, but a retriable
transport error still exhausts the whole retry budget. -/
theorem claim_C3_amended :
    (∀ (cm : Bool) (cache : Option String) (stream : Bool) (f : Nat → Outcome)
        (retries : Nat), (runRetryPlain cm cache "POST" stream f retries).1 = 1)
    ∧ (∀ (cm : Bool) (cache : Option String) (stream : Bool)
        (storable : Response → Bool) (f : Nat → Outcome) (retries : Nat),
        (runRetryHcs cm cache "POST" stream storable f retries).1 = 1)
    ∧ (∀ (cm : Bool) (cache : Option String) (method : String) (res : Response)
        (x : Outcome), stepPlain cm cache method true (.ok res) ≠ .again x)
    ∧ (∀ (cm : Bool) (cache : Option String) (method : String)
        (storable : Response → Bool) (res : Response) (x : Outcome),
        stepHcs cm cache method true storable (.ok res) ≠ .again x)
    ∧ (∀ (cm : Bool) (cache : Option String) (method : String) (err : FetchErr)
        (retries : Nat), method ≠ "POST" → err.code ∈ RETRY_ERRORS →
        (runRetryPlain cm cache method true (fun _ => .fail err) retries).1 = retries + 1) := by
  refine ⟨?_, ?_, ?_, ?_, ?_⟩
  · intro cm cache stream f retries
    exact runRetryLoop_no_again _ f (stepPlain_post_no_again cm cache stream) 1 retries
  · intro cm cache stream storable f retries
    exact runRetryLoop_no_again _ f (stepHcs_post_no_again cm cache stream storable) 1 retries
  · intro cm cache method res x
    have h := onResponse_stream_never_retry cm cache method res
    unfold stepPlain
    rcases hr : remoteFetchOnResponse cm cache method true res <;> simp_all
  · intro cm cache method storable res x
    have h := onResponseHcs_stream_never_retry cm cache method (storable res) res
    unfold stepHcs
    rcases hr : remoteFetchOnResponseHcs cm cache method true (storable res) res <;> simp_all
  · intro cm cache method err retries hpost hmem
    have hcode : err.code ≠ "EPROMISERETRY" := by
      intro h
      rw [h] at hmem
      exact absurd hmem (by decide)
    have hstep : ∀ _ : Nat, ∃ x : Outcome,
        stepPlain cm cache method true (Outcome.fail err) = StepResult.again x := by
      intro n
      refine ⟨.fail err, ?_⟩
      unfold stepPlain remoteFetchOnError
      simp [hcode, hpost, hmem]
    have := runRetryLoop_always_again (stepPlain cm cache method true)
      (fun _ => Outcome.fail err) hstep 1 retries
    unfold runRetryPlain
    rw [this]
    omega

/-- Witness for C3 amended at concrete inputs: a POST with a constantly
failing transport makes one attempt; a stream-body GET with ECONNRESET and
one retry makes two. -/
theorem claim_C3_amended_witness :
    (runRetryPlain false none "POST" true
      (fun _ => .fail { code := "ECONNRESET", retriedCode := "", type := "" }) 5).1 = 1
    ∧ (runRetryPlain false none "GET" true
      (fun _ => .fail { code := "ECONNRESET", retriedCode := "", type := "" }) 1).1 = 1 + 1 :=
  ⟨claim_C3_amended.1 false none true _ 5,
   claim_C3_amended.2.2.2.2 false none "GET"
     { code := "ECONNRESET", retriedCode := "", type := "" } 1 (by decide) (by decide)⟩

/-- C4 counterexample: in the src/index.js `remoteFetch`, a GET with a
non-stream body answered 404 with one retry of budget is attempted twice —
404 sits in the retriable-status list there (line 302), so the claim that
404 is returned without a further attempt is false for that revision. -/
theorem claim_C4_counterexample :
    (runRetryPlain false none "GET" false (fun _ => .ok { status := 404, headers := [] }) 1).1
      = 2 := by
  rfl

/-- C4 amended: for a GET with a non-stream body, the part_006 attempt body
retries exactly the statuses 408, 420, 429 and 5xx, while the src/index.js
attempt body additionally retries 404; any other 4xx is returned as the
final response by both. -/
theorem claim_C4_amended (cm : Bool) (cache : Option String) (storable : Bool)
    (hs : HeaderMap) (status : Nat) :
    (remoteFetchOnResponseHcs cm cache "GET" false storable { status := status, headers := hs }
        = .retryRes
      ↔ status = 408 ∨ status = 420 ∨ status = 429 ∨ 500 ≤ status)
    ∧ (remoteFetchOnResponse cm cache "GET" false { status := status, headers := hs }
        = .retryRes
      ↔ status = 404 ∨ status = 408 ∨ status = 420 ∨ status = 429 ∨ 500 ≤ status)
    ∧ (400 ≤ status → status < 500 →
        ¬(status = 404 ∨ status = 408 ∨ status = 420 ∨ status = 429) →
        remoteFetchOnResponse cm cache "GET" false { status := status, headers := hs }
          = .finalRes
        ∧ remoteFetchOnResponseHcs cm cache "GET" false storable { status := status, headers := hs }
          = .finalRes) := by
  refine ⟨?_, ?_, ?_⟩
  · unfold remoteFetchOnResponseHcs
    split_ifs <;> simp_all <;> omega
  · unfold remoteFetchOnResponse
    split_ifs <;> simp_all <;> omega
  · intro h1 h2 h3
    constructor
    · unfold remoteFetchOnResponse
      split_ifs <;> simp_all <;> omega
    · unfold remoteFetchOnResponseHcs
      split_ifs <;> simp_all <;> omega

/-- Witness for C4 amended at a concrete input: status 404 is retried by the
src/index.js body, not by the part_006 body, and status 400 is final. -/
theorem claim_C4_amended_witness :
    (remoteFetchOnResponseHcs false none "GET" false false { status := 404, headers := [] }
        = .retryRes
      ↔ (404 : Nat) = 408 ∨ (404 : Nat) = 420 ∨ (404 : Nat) = 429 ∨ 500 ≤ 404)
    ∧ (remoteFetchOnResponse false none "GET" false { status := 400, headers := [] }
      = .finalRes) :=
  ⟨(claim_C4_amended false none false [] 404).1,
   ((claim_C4_amended false none false [] 400).2.2 (by decide) (by decide) (by decide)).1⟩

/-- C10: without a cache manager the cache mode is ignored entirely:
`cachingFetch` always takes the network branch (in particular it never
rejects with ENOTCACHED, whatever `opts.cache` says), and neither revision's
attempt body ever stores into or deletes from a cache. -/
theorem claim_C10_cache_ignored_without_manager :
    (∀ (uri : String) (method0 cache0 : Option String) (headers : HeaderMap)
        (matched : Option Response) (stale : Bool),
      cachingFetch uri method0 false cache0 headers matched stale = .network)
    ∧ (∀ (cache : Option String) (method : String) (stream : Bool) (res : Response),
        remoteFetchOnResponse false cache method stream res ≠ .putCache
        ∧ remoteFetchOnResponse false cache method stream res ≠ .deleteFinal
        ∧ remoteFetchOnResponse false cache method stream res ≠ .deleteRetry)
    ∧ (∀ (cache : Option String) (method : String) (stream storable : Bool) (res : Response),
        remoteFetchOnResponseHcs false cache method stream storable res ≠ .putCache
        ∧ remoteFetchOnResponseHcs false cache method stream storable res ≠ .deleteFinal
        ∧ remoteFetchOnResponseHcs false cache method stream storable res ≠ .deleteRetry) := by
  refine ⟨?_, ?_, ?_⟩
  · intro uri method0 cache0 headers matched stale
    unfold cachingFetch
    simp
  · intro cache method stream res
    refine ⟨?_, ?_, ?_⟩ <;> · unfold remoteFetchOnResponse; split_ifs <;> simp_all
  · intro cache method stream storable res
    refine ⟨?_, ?_, ?_⟩ <;> · unfold remoteFetchOnResponseHcs; split_ifs <;> simp_all

/-- C2: `Cache.match` never returns an entry whose stored response has a
`Vary` containing `*`; and whenever it does return an entry, every field
listed in a non-empty `Vary` has equal values in the stored request's
headers and in the current request's headers (so any mismatch yields no
match). -/
theorem claim_C2_vary :
    (∀ (req : Request) (oi : Option Sri) (info : CacheInfo) (v : String),
      headerGet info.resHeaders "Vary" = some v → v.data.contains '*' = true →
      cacheMatch req oi (some info) = none)
    ∧ (∀ (req : Request) (oi : Option Sri) (info : CacheInfo) (v : String) (r : Response),
      headerGet info.resHeaders "Vary" = some v → v ≠ "" →
      cacheMatch req oi (some info) = some r →
      ∀ f ∈ splitCommaWs v, headerGet info.reqHeaders f = headerGet req.headers f) := by
  constructor
  · intro req oi info v hv hstar
    have hmem : '*' ∈ v.data := by simpa using hstar
    have hne : v ≠ "" := by
      intro h
      rw [h] at hmem
      simp at hmem
    have ht : jsTruthy (some v) = true := by
      unfold jsTruthy
      simpa using hne
    unfold cacheMatch matchDetails
    simp [hv, ht, hmem]
  · intro req oi info v r hv hne hmatch f hf
    have ht : jsTruthy (some v) = true := by
      unfold jsTruthy
      simpa using hne
    unfold cacheMatch matchDetails at hmatch
    simp [hv, ht] at hmatch
    exact hmatch.1.2.1 f hf

/-- Witness for C2 at concrete inputs: a stored `Vary: *` entry does not
match, and from a concrete successful match with `Vary: accept` the
accept values agree. -/
theorem claim_C2_vary_witness :
    cacheMatch { url := "https://example.com/x", headers := [] } none
        (some { metaUrl := "https://example.com/x", reqHeaders := []
              , resHeaders := [("vary", "*")], integrity := [] }) = none
    ∧ headerGet [("accept", "text/html")] "accept"
        = headerGet [("accept", "text/html")] "accept" :=
  ⟨claim_C2_vary.1 { url := "https://example.com/x", headers := [] } none
      { metaUrl := "https://example.com/x", reqHeaders := []
      , resHeaders := [("vary", "*")], integrity := [] } "*" (by decide) (by decide),
   claim_C2_vary.2 { url := "https://example.com/x", headers := [("accept", "text/html")] } none
      { metaUrl := "https://example.com/x", reqHeaders := [("accept", "text/html")]
      , resHeaders := [("vary", "accept")], integrity := [] } "accept"
      { status := 200, headers := [("vary", "accept")] }
      (by decide) (by decide) (by decide) "accept" (by decide)⟩

/-- C8: a `Cache.match` hit carries exactly the stored response headers —
no `x-local-cache`, `x-local-cache-key`, `x-local-cache-hash` or
`x-local-cache-time` header is added anywhere in src/cache.js (either
revision), although the repository's own test suite
(src/unnamed/part_002 lines 38-56) asserts that cache hits carry all
four.  Evaluated at a concrete hit whose stored entry lacks them. -/
theorem claim_C8_no_cache_metadata_headers :
    cacheMatch { url := "https://example.com/x", headers := [] } none
        (some { metaUrl := "https://example.com/x", reqHeaders := []
              , resHeaders := [("content-type", "text/plain")]
              , integrity := [("sha512", ["deadbeef"])] })
      = some { status := 200, headers := [("content-type", "text/plain")] }
    ∧ headerGet [("content-type", "text/plain")] "x-local-cache" = none
    ∧ headerGet [("content-type", "text/plain")] "x-local-cache-key" = none
    ∧ headerGet [("content-type", "text/plain")] "x-local-cache-hash" = none
    ∧ headerGet [("content-type", "text/plain")] "x-local-cache-time" = none := by
  refine ⟨?_, rfl, rfl, rfl, rfl⟩
  rfl

/-- C6 (code bug): at a concrete store that does hold an entry under the
request's key, `Cache.delete` still resolves `false`, although the entry
existed and was removed — contradicting the doc comment directly above the
source (src/cache.js lines 353-355: resolve `true` when an entry is found)
and the spec's delete contract. -/
theorem claim_C6_delete_always_false :
    (([(cacheKey { url := "https://example.com/a", headers := [] },
        { metaUrl := "https://example.com/a", reqHeaders := []
        , resHeaders := [], integrity := [] })] :
      List (String × CacheInfo)).any
        (fun p => p.1 == cacheKey { url := "https://example.com/a", headers := [] }) = true)
    ∧ (cacheDelete
        [(cacheKey { url := "https://example.com/a", headers := [] },
          { metaUrl := "https://example.com/a", reqHeaders := []
          , resHeaders := [], integrity := [] })]
        { url := "https://example.com/a", headers := [] }).1 = false
    ∧ (cacheDelete
        [(cacheKey { url := "https://example.com/a", headers := [] },
          { metaUrl := "https://example.com/a", reqHeaders := []
          , resHeaders := [], integrity := [] })]
        { url := "https://example.com/a", headers := [] }).2 = [] := by
  refine ⟨rfl, rfl, ?_⟩
  rfl

/-- C7: at every point of the tee's trace (every prefix of events), the
sequence of chunks delivered to the caller is a prefix of the sequence of
chunks the cache writer has already accepted — the caller never holds a
byte the cache write has not completed. -/
theorem claim_C7_cache_before_caller {α : Type} (chunks : List α) (n : Nat) :
    deliveredToCaller ((teeTrace chunks).take n) <+:
      acceptedByCache ((teeTrace chunks).take n) := by
  induction chunks generalizing n with
  | nil =>
    simp only [teeTrace, List.take_nil]
    exact List.nil_prefix
  | cons c cs ih =>
    match n with
    | 0 =>
      simp only [List.take_zero]
      exact List.nil_prefix
    | 1 =>
      simp [teeTrace, deliveredToCaller, acceptedByCache]
    | Nat.succ (Nat.succ m) =>
      have h := ih m
      obtain ⟨t, ht⟩ := h
      refine ⟨t, ?_⟩
      simp [teeTrace, deliveredToCaller, acceptedByCache] at ht ⊢
      exact ht

/-- Environment lookups in an environment without empty values are clean. -/
lemma envGet_clean (env : Env) (hc : ∀ p ∈ env, p.2 ≠ "") (name : String) :
    cleanVal (envGet env name) := by
  intro v hv
  unfold envGet at hv
  rcases hfind : env.find? (fun p => p.1 == name) with _ | p
  · rw [hfind] at hv
    simp at hv
  · rw [hfind] at hv
    simp at hv
    exact hv ▸ hc p (List.mem_of_find?_eq_some hfind)

/-- `jsOr` preserves cleanliness. -/
lemma jsOr_clean {a b : Option String} (ha : cleanVal a) (hb : cleanVal b) :
    cleanVal (jsOr a b) := by
  intro v hv
  unfold jsOr at hv
  split at hv
  · exact ha v hv
  · exact hb v hv

/-- On clean values, JavaScript `||` coincides with `Option.orElse`. -/
lemma jsOr_eq_orElse {a : Option String} (b : Unit → Option String) (ha : cleanVal a) :
    jsOr a (b ()) = a.orElse b := by
  rcases hha : a with _ | v
  · rfl
  · have hvne : v ≠ "" := ha v hha
    have hb : (v == "") = false := beq_eq_false_iff_ne.mpr hvne
    unfold jsOr jsTruthy
    simp only [hb, Bool.not_false, if_true]
    rfl

/-- A clean value ors with `none` to itself. -/
lemma jsOr_none_right {a : Option String} (ha : cleanVal a) : jsOr a none = a := by
  rw [jsOr_eq_orElse (fun _ => none) ha]
  rcases a <;> rfl

/-- C9 counterexample: with the proxy URL only under the uppercase name
HTTPS_PROXY, the `getProxyUri` of src/index.js finds no proxy for an https
request — uppercase and lowercase variants are not tried there — while the
later agent module's selector does find it. -/
theorem claim_C9_counterexample :
    getProxyUri "https:" none [("HTTPS_PROXY", "http://proxy.example:8080")] = none
    ∧ getProxyUriAgent "https:" none [("HTTPS_PROXY", "http://proxy.example:8080")]
      = some "http://proxy.example:8080" := by
  constructor
  · rfl
  · rfl

/-- C9 amended: in the later agent module, the https-protocol proxy
selection consults only the name https_proxy (so http_proxy is ignored) and
its per-name lookup tries the name verbatim, then uppercased, then
lowercased, exactly as the spec words it; the selector inline in
src/index.js instead reads only the exact lowercase names.  (Stated over
environments without empty-string values, where JavaScript truthiness and
definedness agree.) -/
theorem claim_C9_amended (env : Env) (hc : ∀ p ∈ env, p.2 ≠ "") :
    getProxyUriAgent "https:" none env = getProcessEnvOne env "https_proxy"
    ∧ (∀ name, getProcessEnvOne env name = specEnvLookup env name)
    ∧ getProxyUri "https:" none env = envGet env "https_proxy" := by
  have hone : ∀ name, cleanVal (getProcessEnvOne env name) := fun name =>
    jsOr_clean (envGet_clean env hc name)
      (jsOr_clean (envGet_clean env hc (upperStr name)) (envGet_clean env hc (lowerStr name)))
  refine ⟨?_, ?_, ?_⟩
  · have e1 : getProxyUriAgent "https:" none env
        = jsOr (getProcessEnvOne env "https_proxy") none := by
      show jsOr (if ("https:" : String) = "https:" then getProcessEnvOne env "https_proxy"
            else none)
          (if ("https:" : String) = "http:"
            then getProcessEnvList env ["https_proxy", "http_proxy", "proxy"] else none)
        = jsOr (getProcessEnvOne env "https_proxy") none
      rw [if_pos rfl, if_neg (by decide)]
    rw [e1, jsOr_none_right (hone "https_proxy")]
  · intro name
    unfold getProcessEnvOne specEnvLookup
    rw [jsOr_eq_orElse (fun _ => envGet env (lowerStr name))
        (envGet_clean env hc (upperStr name))]
    rw [jsOr_eq_orElse (fun _ =>
        (envGet env (upperStr name)).orElse (fun _ => envGet env (lowerStr name)))
        (envGet_clean env hc name)]
  · have e1 : getProxyUri "https:" none env = jsOr (envGet env "https_proxy") none := by
      show jsOr (if ("https:" : String) = "https:" then envGet env "https_proxy" else none)
          (if ("https:" : String) = "http:"
            then jsOr (envGet env "https_proxy")
              (jsOr (envGet env "http_proxy") (envGet env "proxy")) else none)
        = jsOr (envGet env "https_proxy") none
      rw [if_pos rfl, if_neg (by decide)]
    rw [e1, jsOr_none_right (envGet_clean env hc "https_proxy")]

/-- Witness for C9 amended at a concrete environment. -/
theorem claim_C9_amended_witness :
    getProxyUriAgent "https:" none [("https_proxy", "http://a:1"), ("http_proxy", "http://b:2")]
      = getProcessEnvOne [("https_proxy", "http://a:1"), ("http_proxy", "http://b:2")]
          "https_proxy"
    ∧ getProxyUri "https:" none [("https_proxy", "http://a:1"), ("http_proxy", "http://b:2")]
      = envGet [("https_proxy", "http://a:1"), ("http_proxy", "http://b:2")] "https_proxy" :=
  ⟨(claim_C9_amended [("https_proxy", "http://a:1"), ("http_proxy", "http://b:2")]
      (by decide)).1,
   (claim_C9_amended [("https_proxy", "http://a:1"), ("http_proxy", "http://b:2")]
      (by decide)).2.2⟩

end MakeFetchHappen
